import Mathlib

/-!
Shallow embedding of the `nuro` timer backend (src/backend/app), covering the
timer data model (`models/timer.py`), the Redis-backed helpers
(`utils/redis.py`), the timer service (`services/timers.py`), the request
schemas (`schemas/timer.py`) and the conditional-response logic of the tick
route (`api/timers.py`).

Modelling conventions:
- wall-clock instants and the monotonic clock are both modelled as exact
  rationals (epoch seconds); Python `int(...)` truncation toward zero is
  `pyInt`;
- the shared Redis store is modelled as explicit state: an association list
  for timer hashes, a list of held finish-lock keys, and an association list
  of rate-limit counters; TTL bookkeeping of cache/lock entries is delegated
  to the store in the source and is not claim-relevant, so entries are either
  present or absent;
- the SHA-1 + urlsafe-base64 digest used by `build_weak_etag` is an external
  library call (`hashlib`/`base64`); it is modelled by an injective stand-in
  so that equal part lists give equal tags and the concrete tags computed
  here correspond to concrete tags of the real system;
- one fixed instant `now` is threaded through a request: the source calls
  `datetime.now` / `monotonic` several times during one request, and a sleep
  of one poll interval advances the modelled clock by that interval.
-/

namespace Nuro

/-- Timer lifecycle states, from `models/timer.py` (`TimerStatus`). -/
inductive TimerStatus
  | running
  | completed
  | canceled
deriving DecidableEq, Repr

/-- The string value of a status, as stored/serialized (`TimerStatus(str, Enum)`). -/
def TimerStatus.value : TimerStatus → String
  | .running => "running"
  | .completed => "completed"
  | .canceled => "canceled"

/-- Durable timer row, from `models/timer.py` (`Timer`). Timestamps are
rational epoch seconds. -/
structure Timer where
  id : String
  user_id : String
  label : String
  duration_seconds : ℤ
  status : TimerStatus
  started_at : ℚ
  ends_at : ℚ
  completed_at : Option ℚ := none
  canceled_at : Option ℚ := none
  version : ℤ := 1
  updated_at : ℚ
deriving DecidableEq, Repr

/-- `Timer.touch`: bump `version` and `updated_at`. -/
def Timer.touch (t : Timer) (now : ℚ) : Timer :=
  { t with version := t.version + 1, updated_at := now }

/-- `Timer.mark_completed`: set status completed, freeze `completed_at` and
`ends_at` to the completion instant, then touch. The source defaults the
instant to `datetime.now`; the model passes that instant explicitly. -/
def Timer.mark_completed (t : Timer) (now : ℚ) : Timer :=
  Timer.touch { t with status := .completed, completed_at := some now, ends_at := now } now

/-- `Timer.mark_canceled`: set status canceled and `canceled_at`, then touch.
Note it does not modify `ends_at`. -/
def Timer.mark_canceled (t : Timer) (now : ℚ) : Timer :=
  Timer.touch { t with status := .canceled, canceled_at := some now } now

/-- Python `int(...)` on an exact rational: truncation toward zero. -/
def pyInt (q : ℚ) : ℤ :=
  if 0 ≤ q then ⌊q⌋ else ⌈q⌉

/-- Key template `nuro:timer:{timer_id}` from `utils/redis.py`. -/
def timer_key (timer_id : String) : String :=
  "nuro:timer:" ++ timer_id

/-- Key template `nuro:timer:{timer_id}:finish-lock` from `utils/redis.py`. -/
def timer_finish_lock_key (timer_id : String) : String :=
  "nuro:timer:" ++ timer_id ++ ":finish-lock"

/-- Key template `nuro:rl:{key}` from `utils/redis.py`. -/
def rate_limit_key (identifier : String) : String :=
  "nuro:rl:" ++ identifier

/-- Cached ephemeral timer state, from `utils/redis.py` (`TimerState`). -/
structure TimerState where
  timer_id : String
  user_id : String
  label : String
  duration_seconds : ℤ
  end_ts : ℚ
deriving DecidableEq, Repr

/-- `TimerState.ends_at`: the cached end instant. -/
def TimerState.ends_at (s : TimerState) : ℚ :=
  s.end_ts

/-- `TimerState.remaining_seconds`: whole seconds left, clamped at zero. -/
def TimerState.remaining_seconds (s : TimerState) (now : ℚ) : ℤ :=
  let remaining := pyInt (s.end_ts - now)
  if remaining > 0 then remaining else 0

/-- A rate-limit counter entry: its value and, when set, its expiry window.
`expiry = none` models a Redis key without TTL (the `TTL` command answers -1). -/
structure RLEntry where
  count : ℤ
  expiry : Option ℤ
deriving DecidableEq, Repr

/-- The rate-limit keyspace of the shared store. -/
abbrev RLStore := List (String × RLEntry)

/-- Association-list lookup keyed by strings. -/
def alistGet {α : Type} (l : List (String × α)) (k : String) : Option α :=
  (l.find? (fun p => p.1 == k)).map Prod.snd

/-- Association-list insert-or-replace keyed by strings. -/
def alistPut {α : Type} (l : List (String × α)) (k : String) (v : α) : List (String × α) :=
  match l with
  | [] => [(k, v)]
  | (k0, v0) :: rest =>
    if k0 == k then (k, v) :: rest else (k0, v0) :: alistPut rest k v

/-- Association-list deletion keyed by strings. -/
def alistDel {α : Type} (l : List (String × α)) (k : String) : List (String × α) :=
  l.filter (fun p => !(p.1 == k))

/-- Redis `INCR`: create the key at 1 (without TTL) or increment it in place. -/
def rlIncr (rl : RLStore) (key : String) : RLStore :=
  match alistGet rl key with
  | none => alistPut rl key { count := 1, expiry := none }
  | some e => alistPut rl key { e with count := e.count + 1 }

/-- Redis `TTL`: -2 for a missing key, -1 for a key without expiry, else the
remaining window. -/
def rlTtl (rl : RLStore) (key : String) : ℤ :=
  match alistGet rl key with
  | none => -2
  | some { expiry := none, .. } => -1
  | some { expiry := some t, .. } => t

/-- Redis `EXPIRE`: set the expiry of an existing key. -/
def rlExpire (rl : RLStore) (key : String) (seconds : ℤ) : RLStore :=
  match alistGet rl key with
  | none => rl
  | some e => alistPut rl key { e with expiry := some seconds }

/-- `ensure_rate_limit` from `utils/redis.py`: pipeline `INCR` + `TTL`, seed
the window expiry when the counter has none, and flag rejection when the
post-increment count exceeds the token budget. Returns the updated store and
whether `RateLimitExceededError` is raised. -/
def ensure_rate_limit (rl : RLStore) (identifier : String) (tokens period_seconds : ℤ) :
    RLStore × Bool :=
  let key := rate_limit_key identifier
  let rl1 := rlIncr rl key
  let ttl := rlTtl rl1 key
  let current := ((alistGet rl1 key).map RLEntry.count).getD 0
  let rl2 := if ttl = -1 then rlExpire rl1 key period_seconds else rl1
  (rl2, decide (current > tokens))

/-- Count held by a rate-limit key (0 when absent); used to state claims. -/
def rlCount (rl : RLStore) (key : String) : ℤ :=
  ((alistGet rl key).map RLEntry.count).getD 0

/-- Expiry held by a rate-limit key (none when absent or unset). -/
def rlExpiryOf (rl : RLStore) (key : String) : Option ℤ :=
  match alistGet rl key with
  | none => none
  | some e => e.expiry

/-- Application settings relevant to the timer service, from `core/config.py`
(defaults as in `Settings`). -/
structure Settings where
  rate_limit_tokens : ℤ := 60
  rate_limit_period_seconds : ℤ := 60
  long_poll_timeout_seconds : ℚ := 30
  long_poll_interval_seconds : ℚ := 1 / 2
deriving DecidableEq, Repr

/-- The observable shared state a request touches: the durable timer table,
the Redis timer hashes, the held finish-lock keys, and the rate-limit keys. -/
structure Store where
  db : List Timer
  cache : List (String × TimerState)
  locks : List String
  rl : RLStore
deriving DecidableEq, Repr

/-- Committing a mutated row: replace the row with the same id
(`session.commit` after mutating a loaded ORM object). -/
def dbSave (db : List Timer) (t : Timer) : List Timer :=
  db.map (fun r => if r.id == t.id then t else r)

/-- Error taxonomy surfaced by the service/route layer: HTTP 429, 404, 422. -/
inductive ApiError
  | rateLimited
  | notFound (message : String)
  | validationFailed (message : String)
deriving DecidableEq, Repr

/-- `TimerService.enforce_rate_limit`: run the limiter under the
`{scope}:{user_id}` identifier; the Boolean reports whether HTTP 429 is
raised. The incremented counter persists either way. -/
def enforce_rate_limit (s : Settings) (st : Store) (userId scope : String) :
    Bool × Store :=
  let (rl2, rejected) :=
    ensure_rate_limit st.rl (scope ++ ":" ++ userId) s.rate_limit_tokens
      s.rate_limit_period_seconds
  (rejected, { st with rl := rl2 })

/-- `TimerService._load_timer_for_user`: select by timer id and owning user;
a missing row and a row owned by another user both surface the same
`TimerNotFoundError`. -/
def load_timer_for_user (st : Store) (timer_id user_id : String) :
    Except ApiError Timer :=
  match st.db.find? (fun t => t.id == timer_id && t.user_id == user_id) with
  | some t => Except.ok t
  | none =>
    Except.error (ApiError.notFound
      ("Timer " ++ timer_id ++ " not found for user " ++ user_id))

/-- `TimerService._persist_timer_state`: mirror a running timer into the
cache (no-op otherwise). The entry's TTL, `max(1, ends_at - now)` seconds,
is enforced by the store and not tracked here. -/
def persist_timer_state (st : Store) (t : Timer) : Store :=
  if t.status ≠ TimerStatus.running then st
  else
    let state : TimerState :=
      { timer_id := t.id, user_id := t.user_id, label := t.label
        duration_seconds := t.duration_seconds, end_ts := t.ends_at }
    { st with cache := alistPut st.cache (timer_key t.id) state }

/-- `TimerService._ensure_timer_state`: read the cached hash; when it is
absent for a running timer, lazily repopulate it and re-read. -/
def ensure_timer_state (st : Store) (t : Timer) : Option TimerState × Store :=
  match alistGet st.cache (timer_key t.id) with
  | some s => (some s, st)
  | none =>
    if t.status = TimerStatus.running then
      let st2 := persist_timer_state st t
      (alistGet st2.cache (timer_key t.id), st2)
    else (none, st)

/-- `TimerService._finalise_completed_timer`, sequential (single-caller)
semantics: bail out on a non-running row or a held finish lock (the loser
merely sleeps); otherwise take the lock, commit `mark_completed`, then
release the lock and drop the cache entry. -/
def finalise_completed_timer (now : ℚ) (st : Store) (t : Timer) : Store :=
  if t.status ≠ TimerStatus.running then st
  else if timer_finish_lock_key t.id ∈ st.locks then st
  else
    let st1 := { st with locks := timer_finish_lock_key t.id :: st.locks }
    let t2 := t.mark_completed now
    let st2 := { st1 with db := dbSave st1.db t2 }
    { st2 with
      locks := st2.locks.filter (fun k => !(k == timer_finish_lock_key t.id)),
      cache := alistDel st2.cache (timer_key t.id) }

/-- Immutable view computed per read (`TimerSnapshot` in
`services/timers.py`). -/
structure TimerSnapshot where
  timer_id : String
  status : TimerStatus
  label : String
  ends_at : ℚ
  remaining_seconds : ℤ
  last_modified : ℚ
  etag : String
deriving DecidableEq, Repr

/-- Stand-in for the external `hashlib.sha1` digest followed by urlsafe
base64 (both outside this repository); modelled as an injective encoding so
that tag equality tracks equality of the digested text. -/
def sha1_urlsafe_b64 (s : String) : String :=
  s

/-- `build_weak_etag`: weak entity tag over the given parts. -/
def build_weak_etag (parts : List String) : String :=
  "W/\"" ++ sha1_urlsafe_b64 (String.intercalate "::" parts) ++ "\""

/-- `TimerService._build_timer_snapshot`: consult the cache (repopulating it
lazily), compute remaining whole seconds, finalise an overdue running timer
and re-read it (`session.refresh`), and fingerprint the result. -/
def build_timer_snapshot (now : ℚ) (st : Store) (t0 : Timer) :
    TimerSnapshot × Store :=
  let (state, st1) := ensure_timer_state st t0
  let (t, remaining, endsAt, st2) :=
    if t0.status = TimerStatus.running then
      let (remaining, endsAt) :=
        match state with
        | some s => (s.remaining_seconds now, s.ends_at)
        | none => (max (pyInt (t0.ends_at - now)) 0, t0.ends_at)
      if remaining ≤ 0 then
        let st2 := finalise_completed_timer now st1 t0
        let t1 := ((st2.db.find? (fun r => r.id == t0.id)).getD t0)
        (t1, 0, t1.ends_at, st2)
      else (t0, remaining, endsAt, st1)
    else (t0, 0, t0.ends_at, st1)
  let etag := build_weak_etag [t.id, t.status.value, toString t.version, toString remaining]
  ({ timer_id := t.id, status := t.status, label := t.label, ends_at := endsAt
     remaining_seconds := remaining, last_modified := t.updated_at, etag := etag }, st2)

/-- Wire view of a single tick (`TimerTickResponse` in `schemas/timer.py`;
`TimerBatchTickItem` has the same fields). -/
structure TimerTickResponse where
  id : String
  status : TimerStatus
  label : String
  ends_at : ℚ
  remaining_seconds : ℤ
  etag : String
  last_modified : ℚ
deriving DecidableEq, Repr

/-- `TimerSnapshot.to_schema`. -/
def TimerSnapshot.to_schema (snap : TimerSnapshot) : TimerTickResponse :=
  { id := snap.timer_id, status := snap.status, label := snap.label
    ends_at := snap.ends_at, remaining_seconds := snap.remaining_seconds
    etag := snap.etag, last_modified := snap.last_modified }

/-- Full timer view (`TimerOut` in `schemas/timer.py`). -/
structure TimerOut where
  id : String
  label : String
  duration_seconds : ℤ
  status : TimerStatus
  started_at : ℚ
  ends_at : ℚ
  completed_at : Option ℚ
  canceled_at : Option ℚ
  remaining_seconds : ℤ
  etag : String
  last_modified : ℚ
deriving DecidableEq, Repr

/-- `TimerService._serialize_timer`. -/
def serialize_timer (t : Timer) (snap : TimerSnapshot) : TimerOut :=
  { id := t.id, label := t.label, duration_seconds := t.duration_seconds
    status := t.status, started_at := t.started_at, ends_at := t.ends_at
    completed_at := t.completed_at, canceled_at := t.canceled_at
    remaining_seconds := snap.remaining_seconds, etag := snap.etag
    last_modified := snap.last_modified }

/-- `TimerService.create_timer`: rate-limit, insert the new running row
(`newId` stands for the generated uuid4), mirror it into the cache, snapshot
and serialize. -/
def create_timer (s : Settings) (now : ℚ) (st : Store) (userId : String)
    (label : String) (duration_seconds : ℤ) (newId : String) :
    Except ApiError TimerOut × Store :=
  let (rejected, st1) := enforce_rate_limit s st userId "timer:create"
  if rejected then (Except.error ApiError.rateLimited, st1)
  else
    let timer : Timer :=
      { id := newId, user_id := userId, label := label
        duration_seconds := duration_seconds, status := TimerStatus.running
        started_at := now, ends_at := now + duration_seconds
        version := 1, updated_at := now }
    let st2 := { st1 with db := st1.db ++ [timer] }
    let st3 := persist_timer_state st2 timer
    let (snap, st4) := build_timer_snapshot now st3 timer
    (Except.ok (serialize_timer timer snap), st4)

/-- `TimerService.cancel_timer`: rate-limit, load the caller's row; a
non-running timer is returned as-is, a running one is marked canceled and
committed, and its cache entry and finish lock are dropped. -/
def cancel_timer (s : Settings) (now : ℚ) (st : Store) (userId timer_id : String) :
    Except ApiError TimerOut × Store :=
  let (rejected, st1) := enforce_rate_limit s st userId "timer:cancel"
  if rejected then (Except.error ApiError.rateLimited, st1)
  else
    match load_timer_for_user st1 timer_id userId with
    | Except.error e => (Except.error e, st1)
    | Except.ok timer =>
      if timer.status ≠ TimerStatus.running then
        let (snap, st2) := build_timer_snapshot now st1 timer
        (Except.ok (serialize_timer timer snap), st2)
      else
        let t2 := timer.mark_canceled now
        let st2 := { st1 with db := dbSave st1.db t2 }
        let st3 :=
          { st2 with
            cache := alistDel st2.cache (timer_key t2.id),
            locks := st2.locks.filter (fun k => !(k == timer_finish_lock_key t2.id)) }
        let (snap, st4) := build_timer_snapshot now st3 t2
        (Except.ok (serialize_timer t2 snap), st4)

/-- `TimerService.get_timer`: load and snapshot, without a rate-limit gate. -/
def get_timer (now : ℚ) (st : Store) (userId timer_id : String) :
    Except ApiError TimerOut × Store :=
  match load_timer_for_user st timer_id userId with
  | Except.error e => (Except.error e, st)
  | Except.ok timer =>
    let (snap, st1) := build_timer_snapshot now st timer
    (Except.ok (serialize_timer timer snap), st1)

/-- The long-poll loop of `TimerService.timer_tick`. Fuel bounds the number
of rounds (the source loop is bounded by the deadline check; fuel exhaustion
returns the latest snapshot like a reached deadline). A sleep advances the
clock by one poll interval; the third component counts sleeps taken. -/
def timer_tick_loop (interval deadline : ℚ) (client_etag : Option String)
    (wait : Bool) (timer_id userId : String) :
    ℕ → ℚ → Store → Except ApiError TimerTickResponse × Store × ℕ
  | 0, _, st => (Except.error (ApiError.notFound "fuel exhausted"), st, 0)
  | Nat.succ fuel, now, st =>
    match load_timer_for_user st timer_id userId with
    | Except.error e => (Except.error e, st, 0)
    | Except.ok timer =>
      let (snap, st1) := build_timer_snapshot now st timer
      if some snap.etag ≠ client_etag ∨ wait = false then
        (Except.ok snap.to_schema, st1, 0)
      else if deadline ≤ now then
        (Except.ok snap.to_schema, st1, 0)
      else
        let (res, st2, sleeps) :=
          timer_tick_loop interval deadline client_etag wait timer_id userId fuel
            (now + interval) st1
        (res, st2, sleeps + 1)

/-- `TimerService.timer_tick`: rate-limit, fix the deadline (`timeout = 0`
when not waiting), then run the poll loop. -/
def timer_tick (s : Settings) (fuel : ℕ) (now : ℚ) (st : Store)
    (timer_id userId : String) (client_etag : Option String) (wait : Bool) :
    Except ApiError TimerTickResponse × Store × ℕ :=
  let (rejected, st1) := enforce_rate_limit s st userId "timer:tick"
  if rejected then (Except.error ApiError.rateLimited, st1, 0)
  else
    let timeout := if wait then s.long_poll_timeout_seconds else 0
    timer_tick_loop s.long_poll_interval_seconds (now + timeout) client_etag wait
      timer_id userId fuel now st1

/-- One pass of `TimerService.batch_timer_tick` over the still-pending ids
(`for timer_id in list(pending_timer_ids)`). Returns the ids still pending,
the accumulated per-id responses and not-modified ids, and the store. The
source's `elif not wait` arm is kept although its guard is subsumed by the
preceding `or not wait` disjunct. -/
def batch_round (now : ℚ) (wait : Bool) (client_etags : List (String × String))
    (userId : String) :
    List String → Store → List (String × TimerTickResponse) → List String →
    Except ApiError (List String × List (String × TimerTickResponse) × List String) × Store
  | [], st, snaps, nm => (Except.ok ([], snaps, nm), st)
  | timerId :: rest, st, snaps, nm =>
    match load_timer_for_user st timerId userId with
    | Except.error e => (Except.error e, st)
    | Except.ok timer =>
      let (snap, st1) := build_timer_snapshot now st timer
      let etag := alistGet client_etags timerId
      if some snap.etag ≠ etag ∨ wait = false then
        batch_round now wait client_etags userId rest st1
          (alistPut snaps timerId snap.to_schema) nm
      else if wait = false then
        batch_round now wait client_etags userId rest st1 snaps (nm ++ [timerId])
      else
        match batch_round now wait client_etags userId rest st1 snaps nm with
        | (Except.ok (pending1, snaps1, nm1), st2) =>
          (Except.ok (timerId :: pending1, snaps1, nm1), st2)
        | (Except.error e, st2) => (Except.error e, st2)

/-- The round loop of `TimerService.batch_timer_tick` (`while
pending_timer_ids`). Fuel exhaustion behaves like a reached deadline. -/
def batch_loop (interval deadline : ℚ) (wait : Bool)
    (client_etags : List (String × String)) (userId : String) :
    ℕ → ℚ → List String → Store → List (String × TimerTickResponse) → List String →
    Except ApiError (List (String × TimerTickResponse) × List String) × Store
  | 0, _, pending, st, snaps, nm => (Except.ok (snaps, nm ++ pending), st)
  | Nat.succ fuel, now, pending, st, snaps, nm =>
    if pending.isEmpty then (Except.ok (snaps, nm), st)
    else
      match batch_round now wait client_etags userId pending st snaps nm with
      | (Except.error e, st1) => (Except.error e, st1)
      | (Except.ok (pending1, snaps1, nm1), st1) =>
        if pending1.isEmpty ∨ wait = false then (Except.ok (snaps1, nm1), st1)
        else if deadline ≤ now then (Except.ok (snaps1, nm1 ++ pending1), st1)
        else
          batch_loop interval deadline wait client_etags userId fuel
            (now + interval) pending1 st1 snaps1 nm1

/-- Insert into a list sorted by the code-point order on strings. -/
def insertSorted (x : String) : List String → List String
  | [] => [x]
  | y :: ys => if x ≤ y then x :: y :: ys else y :: insertSorted x ys

/-- `sorted(...)` over the not-modified id set. -/
def sortStrings (l : List String) : List String :=
  l.foldr insertSorted []

/-- Batched request body (`TimerBatchTickRequest` in `schemas/timer.py`). -/
structure TimerBatchTickRequest where
  timer_ids : List String
  wait : Bool := true
  client_etags : Option (List (String × String)) := none
  timeout_seconds : Option ℚ := none
deriving DecidableEq, Repr

/-- Batched response body (`TimerBatchTickResponse` in `schemas/timer.py`). -/
structure TimerBatchTickResponse where
  timers : List TimerTickResponse
  not_modified : List String
deriving DecidableEq, Repr

/-- `TimerService.batch_timer_tick`: rate-limit, fix the shared deadline
(Python's `timeout_seconds or default` also replaces an explicit 0), run the
round loop over the requested ids (the source iterates a `set` of the
already-validated ids in unspecified order; the model keeps request order),
then order resolved items by the request and sort the not-modified ids. -/
def batch_timer_tick (s : Settings) (fuel : ℕ) (now : ℚ) (st : Store)
    (request : TimerBatchTickRequest) (userId : String) :
    Except ApiError TimerBatchTickResponse × Store :=
  let (rejected, st1) := enforce_rate_limit s st userId "timer:batch-tick"
  if rejected then (Except.error ApiError.rateLimited, st1)
  else
    let client_etags := request.client_etags.getD []
    let wait := request.wait
    let timeout :=
      match request.timeout_seconds with
      | some ts => if ts = 0 then s.long_poll_timeout_seconds else ts
      | none => s.long_poll_timeout_seconds
    let deadline := now + (if wait then timeout else 0)
    match batch_loop s.long_poll_interval_seconds deadline wait client_etags
        userId fuel now request.timer_ids st1 [] [] with
    | (Except.error e, st2) => (Except.error e, st2)
    | (Except.ok (snaps, nm), st2) =>
      let response_items := request.timer_ids.filterMap (fun tid => alistGet snaps tid)
      (Except.ok { timers := response_items, not_modified := sortStrings nm }, st2)

/-- `TimerBatchTickRequest.ensure_unique_ids` (pydantic validator): reject
when `len(value) != len(set(value))`. -/
def ensure_unique_ids (value : List String) : Except String (List String) :=
  if value.length ≠ value.dedup.length then Except.error "timer_ids must be unique"
  else Except.ok value

/-- The `/timers/batch/tick` route: body validation runs before the handler,
so a failing validator surfaces `ValidationFailed` and the service (and with
it every store access) is never reached. -/
def batch_tick_route (s : Settings) (fuel : ℕ) (now : ℚ) (st : Store)
    (timer_ids : List String) (wait : Bool)
    (client_etags : Option (List (String × String))) (timeout_seconds : Option ℚ)
    (userId : String) : Except ApiError TimerBatchTickResponse × Store :=
  match ensure_unique_ids timer_ids with
  | Except.error msg => (Except.error (ApiError.validationFailed msg), st)
  | Except.ok ids =>
    batch_timer_tick s fuel now st
      { timer_ids := ids, wait := wait, client_etags := client_etags
        timeout_seconds := timeout_seconds } userId

/-- Outcome of the `/timers/{id}/tick` route: HTTP 304 with validator
headers, HTTP 200 with a body, or an error status. -/
inductive TickRouteOutcome
  | notModified (etag : String) (last_modified : ℚ)
  | okResp (body : TimerTickResponse)
  | errorResp (e : ApiError)
deriving DecidableEq, Repr

/-- The conditional-response decision at the end of the `timer_tick` route
(`api/timers.py`, after the service call): 304 when the client fingerprint
is supplied and matches, else 304 when a client reference time is supplied
and `last_modified` is at or before it, else 200 with the body. -/
def conditional_response (client_etag : Option String)
    (client_last_modified : Option ℚ) (tick : TimerTickResponse) :
    TickRouteOutcome :=
  let etagHit :=
    match client_etag with
    | some ce => tick.etag == ce
    | none => false
  let lastModifiedHit :=
    match client_last_modified with
    | some lm => decide (tick.last_modified ≤ lm)
    | none => false
  if etagHit then TickRouteOutcome.notModified tick.etag tick.last_modified
  else if lastModifiedHit then TickRouteOutcome.notModified tick.etag tick.last_modified
  else TickRouteOutcome.okResp tick

/-- The `/timers/{id}/tick` route: run the service tick, then apply the
conditional-response decision to its result. -/
def timer_tick_route (s : Settings) (fuel : ℕ) (now : ℚ) (st : Store)
    (timer_id : String) (wait : Bool) (client_etag : Option String)
    (client_last_modified : Option ℚ) (userId : String) :
    TickRouteOutcome × Store :=
  let (res, st1, _) := timer_tick s fuel now st timer_id userId client_etag wait
  match res with
  | Except.error e => (TickRouteOutcome.errorResp e, st1)
  | Except.ok tick => (conditional_response client_etag client_last_modified tick, st1)

/-!
Concurrent model of `TimerService._finalise_completed_timer` for the
exactly-once claim. Each concurrent request runs in its own database session
holding its own in-memory copy of the row (`mem`), and cooperative
interleaving can occur at every `await` (session I/O, Redis I/O, sleeps).
The atomic steps of one finalising request are:

- pc 0: load the row into the session (`_load_timer_for_user`; the snapshot
  build that observes `remaining <= 0` sits between this and the next step
  and contains further awaits, so any interleaving can happen here);
- pc 1: the in-memory `timer.status != RUNNING` early return, immediately
  followed by `redis.set(lock, nx=True)` (no await separates them): bail out
  if the in-memory copy is non-running, defer if the lock is held, else take
  the lock;
- pc 2: `timer.mark_completed()` and `session.commit()` (a durable write);
- pc 3: `redis.delete(lock_key)`;
- pc 4: `redis.delete(timer_key)`; then the call has returned.
-/

/-- Session-local state of one finalising request. -/
structure FinalizeThread where
  mem : Timer
  pc : ℕ
  acquired : Bool := false
deriving DecidableEq, Repr

/-- Shared state touched by concurrent finalisations: the durable row, the
finish lock, the cached hash, and a count of durable writes committed. -/
structure SharedState where
  db : Timer
  lockHeld : Bool
  cachePresent : Bool
  commits : ℕ
deriving DecidableEq, Repr

/-- One atomic step of a finalising request (no-op once it has returned). -/
def finalize_step (now : ℚ) (sh : SharedState) (th : FinalizeThread) :
    SharedState × FinalizeThread :=
  match th.pc with
  | 0 => (sh, { th with mem := sh.db, pc := 1 })
  | 1 =>
    if th.mem.status ≠ TimerStatus.running then (sh, { th with pc := 5 })
    else if sh.lockHeld then (sh, { th with pc := 5 })
    else ({ sh with lockHeld := true }, { th with acquired := true, pc := 2 })
  | 2 =>
    let t2 := th.mem.mark_completed now
    ({ sh with db := t2, commits := sh.commits + 1 }, { th with mem := t2, pc := 3 })
  | 3 => ({ sh with lockHeld := false }, { th with pc := 4 })
  | 4 => ({ sh with cachePresent := false }, { th with pc := 5 })
  | _ => (sh, th)

/-- Two concurrent finalisations A and B over the same shared state; A
observes the wall clock at `nowA`, B at `nowB`. -/
structure ConcState where
  sh : SharedState
  a : FinalizeThread
  b : FinalizeThread
deriving DecidableEq, Repr

/-- The cooperative scheduler runs one atomic step of the chosen request. -/
def conc_step (nowA nowB : ℚ) (st : ConcState) (pickA : Bool) : ConcState :=
  if pickA then
    let (sh, a) := finalize_step nowA st.sh st.a
    { st with sh := sh, a := a }
  else
    let (sh, b) := finalize_step nowB st.sh st.b
    { st with sh := sh, b := b }

/-- Run a schedule (a list of picks, `true` = request A). -/
def conc_run (nowA nowB : ℚ) (st : ConcState) (schedule : List Bool) : ConcState :=
  schedule.foldl (conc_step nowA nowB) st

/-- The effective end instant a snapshot is computed against, following the
spec's wording: the cache entry's end timestamp if an entry is present, else
the durable `ends_at`. Used to compare snapshots with the spec's
`remaining_seconds` formula. -/
def ends_at_effective (st : Store) (t : Timer) : ℚ :=
  match alistGet st.cache (timer_key t.id) with
  | some s => s.end_ts
  | none => t.ends_at

/-! Concrete fixtures used by counterexamples and witnesses. -/

/-- A running timer of user `u`: one minute long, started at instant 0. -/
def tRun : Timer :=
  { id := "t1", user_id := "u", label := "L", duration_seconds := 60
    status := TimerStatus.running, started_at := 0, ends_at := 60, updated_at := 0 }

/-- A store holding just `tRun`, with empty cache, no locks, fresh limiter. -/
def stRun : Store :=
  { db := [tRun], cache := [], locks := [], rl := [] }

/-- A canceled timer whose originally scheduled `ends_at` lies in the future. -/
def tCanceled : Timer :=
  { id := "t2", user_id := "u", label := "L", duration_seconds := 60
    status := TimerStatus.canceled, started_at := 0, ends_at := 100
    canceled_at := some 1, version := 2, updated_at := 1 }

/-- A store holding just `tCanceled`. -/
def stCanceled : Store :=
  { db := [tCanceled], cache := [], locks := [], rl := [] }

/-- A timer with id `t1` owned by `bob`, used to probe ownership checks. -/
def tForeign : Timer :=
  { id := "t1", user_id := "bob", label := "L", duration_seconds := 60
    status := TimerStatus.running, started_at := 0, ends_at := 60, updated_at := 0 }

/-- Overdue running timer shared by the two concurrent finalisations. -/
def tOverdue : Timer :=
  { id := "t1", user_id := "u", label := "L", duration_seconds := 60
    status := TimerStatus.running, started_at := 0, ends_at := 60, updated_at := 0 }

/-- Initial state of the concurrent-finalisation scenario: both requests have
observed `remaining <= 0` for `tOverdue` and are about to run
`_finalise_completed_timer`; the lock is free and nothing is committed yet. -/
def concInit : ConcState :=
  { sh := { db := tOverdue, lockHeld := false, cachePresent := true, commits := 0 }
    a := { mem := tOverdue, pc := 0 }
    b := { mem := tOverdue, pc := 0 } }

/-! Helper lemmas. -/

theorem alistGet_put_self {α : Type} (l : List (String × α)) (k : String) (v : α) :
    alistGet (alistPut l k v) k = some v := by
  induction l with
  | nil => simp [alistGet, alistPut, List.find?]
  | cons p rest ih =>
    rcases p with ⟨k0, v0⟩
    simp only [alistPut]
    split
    · simp [alistGet, List.find?]
    · next h => simpa [alistGet, List.find?, h] using ih

theorem rlCount_expire (rl : RLStore) (k : String) (p : ℤ) :
    rlCount (rlExpire rl k p) k = rlCount rl k := by
  unfold rlExpire rlCount
  cases h : alistGet rl k with
  | none => simp [h]
  | some e => simp [h, alistGet_put_self]

theorem clamp_pyInt_pos (q : ℚ) : (if pyInt q > 0 then pyInt q else 0) = max 0 ⌊q⌋ := by
  unfold pyInt
  by_cases h : 0 ≤ q
  · have hf : 0 ≤ ⌊q⌋ := Int.floor_nonneg.mpr h
    simp only [if_pos h]
    split
    · next hgt => exact (max_eq_right (le_of_lt hgt)).symm
    · next hle => omega
  · have hq : q ≤ 0 := le_of_not_le h
    have hc : ⌈q⌉ ≤ 0 := Int.ceil_le.mpr (by exact_mod_cast hq)
    have hfl : ⌊q⌋ ≤ 0 := Int.floor_nonpos hq
    simp only [if_neg h]
    split
    · next hgt => omega
    · next hle => omega

theorem max_pyInt_zero (q : ℚ) : max (pyInt q) 0 = max 0 ⌊q⌋ := by
  unfold pyInt
  by_cases h : 0 ≤ q
  · simp only [if_pos h]
    exact max_comm _ _
  · have hq : q ≤ 0 := le_of_not_le h
    have hc : ⌈q⌉ ≤ 0 := Int.ceil_le.mpr (by exact_mod_cast hq)
    have hfl : ⌊q⌋ ≤ 0 := Int.floor_nonpos hq
    simp only [if_neg h]
    omega

theorem length_dedup_eq_iff (l : List String) : l.dedup.length = l.length ↔ l.Nodup := by
  constructor
  · intro h
    have hs := List.dedup_sublist l
    have heq := hs.eq_of_length h
    have := List.nodup_dedup l
    rwa [heq] at this
  · intro h
    rw [List.dedup_eq_self.mpr h]

/-- C6: every rate-limiter check increments the per-identifier counter, also
on rejected calls; a freshly created counter gets the window length as its
expiry; and the call rejects exactly when the post-increment count exceeds
the limit. -/
theorem C6_rate_limiter_check (rl : RLStore) (identifier : String) (tokens period : ℤ) :
    rlCount (ensure_rate_limit rl identifier tokens period).1 (rate_limit_key identifier)
      = rlCount rl (rate_limit_key identifier) + 1
  ∧ (alistGet rl (rate_limit_key identifier) = none →
      rlExpiryOf (ensure_rate_limit rl identifier tokens period).1 (rate_limit_key identifier)
        = some period)
  ∧ ((ensure_rate_limit rl identifier tokens period).2 = true
      ↔ tokens < rlCount rl (rate_limit_key identifier) + 1) := by
  unfold ensure_rate_limit
  cases h : alistGet rl (rate_limit_key identifier) with
  | none =>
    have hget : alistGet (rlIncr rl (rate_limit_key identifier)) (rate_limit_key identifier)
        = some { count := 1, expiry := none } := by
      simp [rlIncr, h, alistGet_put_self]
    simp [rlIncr, h, rlTtl, hget, alistGet_put_self, rlCount, rlExpire, rlExpiryOf]
  | some e =>
    have hget : alistGet (rlIncr rl (rate_limit_key identifier)) (rate_limit_key identifier)
        = some { e with count := e.count + 1 } := by
      simp [rlIncr, h, alistGet_put_self]
    cases hexp : e.expiry with
    | none =>
      simp [rlIncr, h, rlTtl, hget, hexp, alistGet_put_self, rlCount, rlExpire, rlExpiryOf]
    | some t =>
      by_cases ht : t = -1
      · simp [rlIncr, h, rlTtl, hget, hexp, ht, alistGet_put_self, rlCount, rlExpire,
          rlExpiryOf]
      · simp [rlIncr, h, rlTtl, hget, hexp, ht, alistGet_put_self, rlCount, rlExpire,
          rlExpiryOf]

/-- Witness for C6 at a fresh limiter store. -/
theorem C6_rate_limiter_check_witness :
    rlExpiryOf (ensure_rate_limit [] "timer:tick:u" 60 60).1 (rate_limit_key "timer:tick:u")
      = some 60
  ∧ rlCount (ensure_rate_limit [] "timer:tick:u" 60 60).1 (rate_limit_key "timer:tick:u") = 1
  ∧ (ensure_rate_limit [] "timer:tick:u" 60 60).2 = false := by
  refine ⟨(C6_rate_limiter_check [] "timer:tick:u" 60 60).2.1 rfl, ?_, ?_⟩
  · have h := (C6_rate_limiter_check [] "timer:tick:u" 60 60).1
    simpa [rlCount, alistGet] using h
  · have h := (C6_rate_limiter_check [] "timer:tick:u" 60 60).2.2
    have hc : rlCount [] (rate_limit_key "timer:tick:u") = 0 := by simp [rlCount, alistGet]
    rw [hc] at h
    by_contra hfalse
    have : (ensure_rate_limit [] "timer:tick:u" 60 60).2 = true := by
      cases hb : (ensure_rate_limit [] "timer:tick:u" 60 60).2
      · exact absurd hb hfalse
      · rfl
    have := h.mp this
    omega

/-- C9: a missing timer id and a timer id owned by another user produce the
same NotFound outcome (the same error value, a function of the queried pair
only), so the two cases are indistinguishable to the caller. -/
theorem C9_not_found_indistinguishable (st : Store) (timer_id user_id : String)
    (h : ∀ t ∈ st.db, t.id = timer_id → t.user_id ≠ user_id) :
    load_timer_for_user st timer_id user_id =
      Except.error (ApiError.notFound
        ("Timer " ++ timer_id ++ " not found for user " ++ user_id)) := by
  unfold load_timer_for_user
  have hnone : st.db.find? (fun t => t.id == timer_id && t.user_id == user_id) = none := by
    rw [List.find?_eq_none]
    intro t ht
    simp only [Bool.and_eq_true, beq_iff_eq, not_and]
    exact h t ht
  rw [hnone]

/-- Witness for C9: an empty table and a table holding `t1` owned by `bob`
yield literally the same NotFound value for the query `(t1, alice)`. -/
theorem C9_not_found_indistinguishable_witness :
    load_timer_for_user { db := [], cache := [], locks := [], rl := [] } "t1" "alice"
      = Except.error (ApiError.notFound ("Timer " ++ "t1" ++ " not found for user " ++ "alice"))
  ∧ load_timer_for_user { db := [tForeign], cache := [], locks := [], rl := [] } "t1" "alice"
      = Except.error (ApiError.notFound ("Timer " ++ "t1" ++ " not found for user " ++ "alice")) :=
  ⟨C9_not_found_indistinguishable _ "t1" "alice" (by simp),
   C9_not_found_indistinguishable _ "t1" "alice" (by
    intro t ht
    simp only [List.mem_singleton] at ht
    subst ht
    intro _
    simp [tForeign])⟩

/-- C8: a batch tick request whose timer id list contains a duplicate is
rejected as a validation failure with the store untouched: no durable read,
no cache read, and no rate-limit counter increment has happened. -/
theorem C8_duplicate_ids_rejected (s : Settings) (fuel : ℕ) (now : ℚ) (st : Store)
    (timer_ids : List String) (wait : Bool) (ce : Option (List (String × String)))
    (ts : Option ℚ) (userId : String) (h : ¬ timer_ids.Nodup) :
    batch_tick_route s fuel now st timer_ids wait ce ts userId
      = (Except.error (ApiError.validationFailed "timer_ids must be unique"), st) := by
  unfold batch_tick_route ensure_unique_ids
  have hne : timer_ids.length ≠ timer_ids.dedup.length := by
    intro heq
    exact h ((length_dedup_eq_iff timer_ids).mp heq.symm)
  rw [if_pos hne]

/-- Witness for C8 at an explicit duplicated request. -/
theorem C8_duplicate_ids_rejected_witness :
    batch_tick_route {} 1 0 stRun ["t1", "t1"] false none none "u"
      = (Except.error (ApiError.validationFailed "timer_ids must be unique"), stRun) :=
  C8_duplicate_ids_rejected {} 1 0 stRun ["t1", "t1"] false none none "u" (by decide)

/-- C4: completing a running timer at instant `now` yields status completed,
`completed_at = now`, `ends_at = now` (frozen to the completion instant),
`version` incremented by one and `updated_at` bumped to `now`; finalisation
commits exactly this row; and neither cancellation nor a bare touch changes
`ends_at`. -/
theorem C4_completion_freezes_ends_at (t : Timer) (now : ℚ) (st : Store)
    (hrun : t.status = TimerStatus.running)
    (hlock : timer_finish_lock_key t.id ∉ st.locks) :
    (t.mark_completed now).status = TimerStatus.completed
  ∧ (t.mark_completed now).completed_at = some now
  ∧ (t.mark_completed now).ends_at = now
  ∧ (t.mark_completed now).version = t.version + 1
  ∧ (t.mark_completed now).updated_at = now
  ∧ (finalise_completed_timer now st t).db = dbSave st.db (t.mark_completed now)
  ∧ (t.mark_canceled now).ends_at = t.ends_at
  ∧ (t.touch now).ends_at = t.ends_at := by
  refine ⟨rfl, rfl, rfl, rfl, rfl, ?_, rfl, rfl⟩
  unfold finalise_completed_timer
  rw [if_neg (by simp [hrun]), if_neg hlock]

/-- Witness for C4 at the running fixture with a free lock. -/
theorem C4_completion_freezes_ends_at_witness :
    (tRun.mark_completed 61).status = TimerStatus.completed
  ∧ (tRun.mark_completed 61).completed_at = some 61
  ∧ (tRun.mark_completed 61).ends_at = 61
  ∧ (tRun.mark_completed 61).version = tRun.version + 1
  ∧ (tRun.mark_completed 61).updated_at = 61
  ∧ (finalise_completed_timer 61 stRun tRun).db = dbSave stRun.db (tRun.mark_completed 61)
  ∧ (tRun.mark_canceled 61).ends_at = tRun.ends_at
  ∧ (tRun.touch 61).ends_at = tRun.ends_at :=
  C4_completion_freezes_ends_at tRun 61 stRun rfl (by simp [stRun])

/-- C1: evaluation of the code at the failing input. A non-waiting batch tick
for `t1` whose client fingerprint equals the freshly built snapshot
fingerprint reports `t1` in the resolved `timers` list and leaves
`not_modified` empty: the branch `snapshot.etag != etag or not wait` fires
whenever `wait` is false, so the `elif not wait` arm that would fill
`not_modified` is unreachable. The claim (with the spec and the repository's
own test `test_batch_tick_detects_changes`) requires the opposite. -/
theorem C1_unchanged_id_lands_in_resolved :
    ((batch_tick_route {} 1 0 stRun ["t1"] false
        (some [("t1", build_weak_etag ["t1", "running", "1", "60"])]) none "u").1).map
      (fun r => (r.timers.map TimerTickResponse.id, r.not_modified))
      = Except.ok (["t1"], []) := by
  with_unfolding_all rfl

/-- C2 counterexample: a tick whose client fingerprint (`"stale"`) differs
from the snapshot fingerprint still ends in the not-modified outcome,
because the snapshot's `last_modified` (0) is at or before the
client-supplied reference time (100). The claim asserts the outcome would be
"changed" whenever the fingerprints differ. -/
theorem C2_stale_last_modified_counterexample :
    (timer_tick_route {} 1 0 stRun "t1" false (some "stale") (some 100) "u").1
      = TickRouteOutcome.notModified (build_weak_etag ["t1", "running", "1", "60"]) 0
  ∧ build_weak_etag ["t1", "running", "1", "60"] ≠ "stale" := by
  constructor
  · with_unfolding_all rfl
  · with_unfolding_all decide

/-- C2 amended: when both a client fingerprint and a client reference time
are supplied, the not-modified outcome occurs exactly when the fingerprint
matches or the snapshot's `last_modified` is at or before the reference
time; the fingerprint comparison is merely performed first, so a matching
fingerprint alone suffices, but a differing fingerprint does not force the
changed outcome. -/
theorem C2_conditional_amended (ce : String) (lm : ℚ) (tick : TimerTickResponse) :
    conditional_response (some ce) (some lm) tick
        = TickRouteOutcome.notModified tick.etag tick.last_modified
      ↔ (tick.etag = ce ∨ tick.last_modified ≤ lm) := by
  unfold conditional_response
  by_cases h1 : tick.etag = ce
  · simp [h1]
  · have hb : (tick.etag == ce) = false := beq_eq_false_iff_ne.mpr h1
    by_cases h2 : tick.last_modified ≤ lm
    · simp [hb, h2]
    · simp [hb, h2, h1]

/-- C3: evaluation of the code on a failing interleaving. Requests A and B
both load the overdue running timer (A at wall time 61, B at 62), then A
finalises completely (lock, commit, unlock, cache clear) while B is
suspended between its session load and its lock attempt; B's in-memory
status re-check still sees `running`, the lock is free again, so B acquires
it and commits a second durable mutation, overwriting `completed_at` /
`ends_at` / `updated_at` with its own instant. After A alone, the row has
one commit and `completed_at = 61`; after B's turn the commit count is 2 and
`completed_at = 62` — two durable mutations where the claim allows exactly
one and requires losers not to mutate. -/
theorem C3_double_finalisation_interleaving :
    (conc_run 61 62 concInit [true, false, true, true, true, true]).sh.commits = 1
  ∧ (conc_run 61 62 concInit [true, false, true, true, true, true]).sh.db.completed_at
      = some 61
  ∧ (conc_run 61 62 concInit
      [true, false, true, true, true, true, false, false, false, false]).sh.commits = 2
  ∧ (conc_run 61 62 concInit
      [true, false, true, true, true, true, false, false, false, false]).sh.db.completed_at
      = some 62 := by
  refine ⟨rfl, rfl, rfl, rfl⟩

/-- C5 counterexample: for the canceled timer `tCanceled` (whose originally
scheduled `ends_at = 100` lies in the future) a snapshot at instant 0
reports `remaining_seconds = 0`, while `max 0 (ends_at_effective - now)`
is 100, so the claimed equality does not hold for every snapshot. -/
theorem C5_canceled_formula_counterexample :
    (build_timer_snapshot 0 stCanceled tCanceled).1.remaining_seconds
      ≠ max 0 ⌊ends_at_effective stCanceled tCanceled - (0 : ℚ)⌋ := by
  with_unfolding_all decide

theorem state_remaining_eq (s : TimerState) (now : ℚ) :
    s.remaining_seconds now = max 0 ⌊s.end_ts - now⌋ := by
  simp only [TimerState.remaining_seconds]
  exact clamp_pyInt_pos _

theorem build_snapshot_nonrunning (now : ℚ) (st : Store) (t : Timer)
    (h : t.status ≠ TimerStatus.running) :
    build_timer_snapshot now st t =
      ({ timer_id := t.id, status := t.status, label := t.label, ends_at := t.ends_at
         remaining_seconds := 0, last_modified := t.updated_at
         etag := build_weak_etag
           [t.id, t.status.value, toString t.version, toString (0 : ℤ)] }, st) := by
  unfold build_timer_snapshot ensure_timer_state
  cases hc : alistGet st.cache (timer_key t.id) with
  | some s => simp [hc, h]
  | none => simp [hc, h]

theorem build_remaining_running (now : ℚ) (st : Store) (t : Timer)
    (h : t.status = TimerStatus.running) :
    (build_timer_snapshot now st t).1.remaining_seconds
      = max 0 ⌊ends_at_effective st t - now⌋ := by
  cases hc : alistGet st.cache (timer_key t.id) with
  | some s =>
    have hes : ensure_timer_state st t = (some s, st) := by
      simp [ensure_timer_state, hc]
    have heff : ends_at_effective st t = s.end_ts := by
      simp [ends_at_effective, hc]
    have hrem := state_remaining_eq s now
    simp only [build_timer_snapshot, hes, h, if_true, heff]
    split
    · next hle =>
      rw [hrem] at hle
      have hge : 0 ≤ max 0 ⌊s.end_ts - now⌋ := le_max_left _ _
      simp [le_antisymm hle hge]
    · next hgt => simpa using hrem
  | none =>
    have hs : persist_timer_state st t =
        { st with cache := (alistPut st.cache (timer_key t.id)
            ⟨t.id, t.user_id, t.label, t.duration_seconds, t.ends_at⟩) } := by
      simp [persist_timer_state, h]
    have hes : ensure_timer_state st t =
        (some ⟨t.id, t.user_id, t.label, t.duration_seconds, t.ends_at⟩,
         persist_timer_state st t) := by
      simp [ensure_timer_state, hc, h, hs, alistGet_put_self]
    have heff : ends_at_effective st t = t.ends_at := by
      simp [ends_at_effective, hc]
    have hrem := state_remaining_eq
      ⟨t.id, t.user_id, t.label, t.duration_seconds, t.ends_at⟩ now
    simp only [build_timer_snapshot, hes, h, if_true, heff]
    split
    · next hle =>
      rw [hrem] at hle
      have hge : 0 ≤ max 0 ⌊t.ends_at - now⌋ := le_max_left _ _
      simp only [TimerState.remaining_seconds] at hrem
      simp [le_antisymm hle hge]
    · next hgt => simpa using hrem

/-- C5 amended: `remaining_seconds` is non-negative for every snapshot and
is 0 whenever the timer is not running; the spec's formula
`max(0, ends_at_effective - now)` (floored to whole seconds, effective end
taken from the cache entry if present, else from the durable `ends_at`)
holds for running timers, but not in general for canceled timers, whose
durable `ends_at` keeps the originally scheduled instant and may lie in the
future while 0 is reported. -/
theorem C5_remaining_amended (st : Store) (t : Timer) (now : ℚ) :
    0 ≤ (build_timer_snapshot now st t).1.remaining_seconds
  ∧ (t.status ≠ TimerStatus.running →
      (build_timer_snapshot now st t).1.remaining_seconds = 0)
  ∧ (t.status = TimerStatus.running →
      (build_timer_snapshot now st t).1.remaining_seconds
        = max 0 ⌊ends_at_effective st t - now⌋) := by
  refine ⟨?_, ?_, fun h => build_remaining_running now st t h⟩
  · by_cases h : t.status = TimerStatus.running
    · rw [build_remaining_running now st t h]
      exact le_max_left _ _
    · rw [build_snapshot_nonrunning now st t h]
  · intro h
    rw [build_snapshot_nonrunning now st t h]

/-- Witness for C5 amended: the running fixture follows the formula; the
canceled fixture reports zero. -/
theorem C5_remaining_amended_witness :
    (build_timer_snapshot 2 stRun tRun).1.remaining_seconds
      = max 0 ⌊ends_at_effective stRun tRun - (2 : ℚ)⌋
  ∧ (build_timer_snapshot 0 stCanceled tCanceled).1.remaining_seconds = 0 :=
  ⟨(C5_remaining_amended stRun tRun 2).2.2 rfl,
   (C5_remaining_amended stCanceled tCanceled 0).2.1 (by decide)⟩

/-- C10: a single tick that supplies no client fingerprint returns right
after the first snapshot build, with zero poll-interval sleeps, whatever the
`wait` flag: the computed fingerprint (a present string) never equals an
absent client fingerprint, so the first snapshot always counts as changed. -/
theorem C10_no_fingerprint_returns_first (s : Settings) (fuel : ℕ) (now : ℚ)
    (st : Store) (tid uid : String) (wait : Bool) (t : Timer)
    (hrl : (enforce_rate_limit s st uid "timer:tick").1 = false)
    (hload : load_timer_for_user (enforce_rate_limit s st uid "timer:tick").2 tid uid
      = Except.ok t) :
    timer_tick s (fuel + 1) now st tid uid none wait
      = (Except.ok
          ((build_timer_snapshot now
            (enforce_rate_limit s st uid "timer:tick").2 t).1.to_schema),
         (build_timer_snapshot now (enforce_rate_limit s st uid "timer:tick").2 t).2,
         0) := by
  rcases hE : enforce_rate_limit s st uid "timer:tick" with ⟨rejected, st1⟩
  rw [hE] at hrl hload
  simp only at hrl hload
  subst hrl
  unfold timer_tick
  rw [hE]
  simp only [timer_tick_loop, hload]
  rcases hB : build_timer_snapshot now st1 t with ⟨snap, st2⟩
  simp [hB]

/-- Witness for C10 on the running fixture with waiting enabled. -/
theorem C10_no_fingerprint_returns_first_witness :
    timer_tick {} 1 0 stRun "t1" "u" none true
      = (Except.ok
          ((build_timer_snapshot 0
            (enforce_rate_limit {} stRun "u" "timer:tick").2 tRun).1.to_schema),
         (build_timer_snapshot 0 (enforce_rate_limit {} stRun "u" "timer:tick").2 tRun).2,
         0) :=
  C10_no_fingerprint_returns_first {} 0 0 stRun "t1" "u" true tRun (by rfl)
    (by with_unfolding_all rfl)

/-- Running rows of the output table already existed in the input table: no
operation manufactures a running row, so a timer that left `running` never
re-enters it. -/
def status_monotone (db db2 : List Timer) : Prop :=
  ∀ r ∈ db2, r.status = TimerStatus.running → r ∈ db

theorem status_monotone_refl (db : List Timer) : status_monotone db db :=
  fun _ hr _ => hr

theorem status_monotone_trans {d1 d2 d3 : List Timer}
    (h12 : status_monotone d1 d2) (h23 : status_monotone d2 d3) :
    status_monotone d1 d3 :=
  fun r hr hrun => h12 r (h23 r hr hrun) hrun

theorem status_monotone_dbSave (db : List Timer) (t2 : Timer)
    (h : t2.status ≠ TimerStatus.running) :
    status_monotone db (dbSave db t2) := by
  intro r hr hrun
  rcases List.mem_map.mp hr with ⟨r0, hr0, heq⟩
  split at heq
  · rw [← heq] at hrun
    exact absurd hrun h
  · rw [← heq]
    exact hr0

theorem ensure_db (st : Store) (t : Timer) : (ensure_timer_state st t).2.db = st.db := by
  unfold ensure_timer_state persist_timer_state
  cases hc : alistGet st.cache (timer_key t.id) with
  | some s => rfl
  | none =>
    by_cases h : t.status = TimerStatus.running
    · simp [h]
    · simp [h]

theorem enforce_db (s : Settings) (st : Store) (uid scope : String) :
    (enforce_rate_limit s st uid scope).2.db = st.db := rfl

theorem load_db_only (st : Store) (tid uid : String) :
    load_timer_for_user st tid uid =
      load_timer_for_user { st with rl := st.rl } tid uid := rfl

theorem finalise_monotone (now : ℚ) (st : Store) (t : Timer) :
    status_monotone st.db (finalise_completed_timer now st t).db := by
  unfold finalise_completed_timer
  split
  · exact status_monotone_refl _
  · split
    · exact status_monotone_refl _
    · exact status_monotone_dbSave st.db (t.mark_completed now) (by
        simp [Timer.mark_completed, Timer.touch])

theorem build_monotone (now : ℚ) (st : Store) (t : Timer) :
    status_monotone st.db (build_timer_snapshot now st t).2.db := by
  rcases hes : ensure_timer_state st t with ⟨state, st1⟩
  have hdb1 : st1.db = st.db := by
    have h := ensure_db st t
    rw [hes] at h
    exact h
  unfold build_timer_snapshot
  rw [hes]
  by_cases hst : t.status = TimerStatus.running
  · simp only [hst, if_true]
    cases state with
    | some s =>
      split
      · next hle =>
        have hf := finalise_monotone now st1 t
        rw [hdb1] at hf
        exact hf
      · next hgt =>
        rw [← hdb1]
        exact status_monotone_refl _
    | none =>
      split
      · next hle =>
        have hf := finalise_monotone now st1 t
        rw [hdb1] at hf
        exact hf
      · next hgt =>
        rw [← hdb1]
        exact status_monotone_refl _
  · simp only [hst, if_false]
    rw [← hdb1]
    exact status_monotone_refl _

theorem tick_loop_monotone (interval deadline : ℚ) (ce : Option String) (wait : Bool)
    (tid uid : String) :
    ∀ (fuel : ℕ) (now : ℚ) (st : Store),
      status_monotone st.db
        (timer_tick_loop interval deadline ce wait tid uid fuel now st).2.1.db
  | 0, _, st => by
    simp only [timer_tick_loop]
    exact status_monotone_refl _
  | Nat.succ fuel, now, st => by
    cases hl : load_timer_for_user st tid uid with
    | error e =>
      simp only [timer_tick_loop, hl]
      exact status_monotone_refl _
    | ok timer =>
      rcases hB : build_timer_snapshot now st timer with ⟨snap, st1⟩
      have hb := build_monotone now st timer
      rw [hB] at hb
      simp only [timer_tick_loop, hl, hB]
      split
      · exact hb
      · split
        · exact hb
        · rcases hr : timer_tick_loop interval deadline ce wait tid uid fuel
              (now + interval) st1 with ⟨res, st2, sleeps⟩
          have ih := tick_loop_monotone interval deadline ce wait tid uid fuel
            (now + interval) st1
          rw [hr] at ih
          exact status_monotone_trans hb ih

theorem batch_round_monotone (now : ℚ) (wait : Bool)
    (etags : List (String × String)) (uid : String) :
    ∀ (pending : List String) (st : Store)
      (snaps : List (String × TimerTickResponse)) (nm : List String),
      status_monotone st.db (batch_round now wait etags uid pending st snaps nm).2.db
  | [], st, snaps, nm => by
    simp only [batch_round]
    exact status_monotone_refl _
  | tid :: rest, st, snaps, nm => by
    cases hl : load_timer_for_user st tid uid with
    | error e =>
      simp only [batch_round, hl]
      exact status_monotone_refl _
    | ok timer =>
      rcases hB : build_timer_snapshot now st timer with ⟨snap, st1⟩
      have hb := build_monotone now st timer
      rw [hB] at hb
      simp only [batch_round, hl, hB]
      split
      · exact status_monotone_trans hb
          (batch_round_monotone now wait etags uid rest st1
            (alistPut snaps tid snap.to_schema) nm)
      · split
        · exact status_monotone_trans hb
            (batch_round_monotone now wait etags uid rest st1 snaps (nm ++ [tid]))
        · rcases hr : batch_round now wait etags uid rest st1 snaps nm with ⟨res, st2⟩
          have ih := batch_round_monotone now wait etags uid rest st1 snaps nm
          rw [hr] at ih
          rcases res with e | ⟨p1, s1, n1⟩
          · simp only [hr]
            exact status_monotone_trans hb ih
          · simp only [hr]
            exact status_monotone_trans hb ih

theorem batch_loop_monotone (interval deadline : ℚ) (wait : Bool)
    (etags : List (String × String)) (uid : String) :
    ∀ (fuel : ℕ) (now : ℚ) (pending : List String) (st : Store)
      (snaps : List (String × TimerTickResponse)) (nm : List String),
      status_monotone st.db
        (batch_loop interval deadline wait etags uid fuel now pending st snaps nm).2.db
  | 0, _, pending, st, snaps, nm => by
    simp only [batch_loop]
    exact status_monotone_refl _
  | Nat.succ fuel, now, pending, st, snaps, nm => by
    simp only [batch_loop]
    split
    · exact status_monotone_refl _
    · rcases hr : batch_round now wait etags uid pending st snaps nm with ⟨res, st1⟩
      have hround := batch_round_monotone now wait etags uid pending st snaps nm
      rw [hr] at hround
      rcases res with e | ⟨p1, s1, n1⟩
      · exact hround
      · simp only []
        split
        · exact hround
        · split
          · exact hround
          · exact status_monotone_trans hround
              (batch_loop_monotone interval deadline wait etags uid fuel
                (now + interval) p1 st1 s1 n1)

theorem persist_db (st : Store) (t : Timer) : (persist_timer_state st t).db = st.db := by
  unfold persist_timer_state
  split
  · rfl
  · rfl

theorem cancel_monotone (s : Settings) (now : ℚ) (st : Store) (uid tid : String) :
    status_monotone st.db (cancel_timer s now st uid tid).2.db := by
  unfold cancel_timer
  rcases hE : enforce_rate_limit s st uid "timer:cancel" with ⟨rejected, st1⟩
  have hdb1 : st1.db = st.db := by
    have h := enforce_db s st uid "timer:cancel"
    rw [hE] at h
    exact h
  simp only []
  split
  · rw [← hdb1]
    exact status_monotone_refl _
  · cases hl : load_timer_for_user st1 tid uid with
    | error e =>
      simp only [hl]
      rw [← hdb1]
      exact status_monotone_refl _
    | ok timer =>
      simp only [hl]
      split
      · have hb := build_monotone now st1 timer
        rw [hdb1] at hb
        exact hb
      · have h1 : status_monotone st.db (dbSave st1.db (timer.mark_canceled now)) := by
          rw [← hdb1]
          exact status_monotone_dbSave st1.db (timer.mark_canceled now)
            (by simp [Timer.mark_canceled, Timer.touch])
        exact status_monotone_trans h1 (build_monotone now _ (timer.mark_canceled now))

theorem tick_monotone (s : Settings) (fuel : ℕ) (now : ℚ) (st : Store)
    (tid uid : String) (ce : Option String) (wait : Bool) :
    status_monotone st.db (timer_tick s fuel now st tid uid ce wait).2.1.db := by
  unfold timer_tick
  rcases hE : enforce_rate_limit s st uid "timer:tick" with ⟨rejected, st1⟩
  have hdb1 : st1.db = st.db := by
    have h := enforce_db s st uid "timer:tick"
    rw [hE] at h
    exact h
  simp only []
  split
  · rw [← hdb1]
    exact status_monotone_refl _
  · have hloop := tick_loop_monotone s.long_poll_interval_seconds
      (now + (if wait then s.long_poll_timeout_seconds else 0)) ce wait tid uid fuel now st1
    rw [hdb1] at hloop
    exact hloop

theorem batch_loop_monotone_eq {interval deadline : ℚ} {wait : Bool}
    {etags : List (String × String)} {uid : String} {fuel : ℕ} {now : ℚ}
    {pending : List String} {st : Store} {snaps : List (String × TimerTickResponse)}
    {nm : List String}
    {res : Except ApiError (List (String × TimerTickResponse) × List String)} {st2 : Store}
    (heq : batch_loop interval deadline wait etags uid fuel now pending st snaps nm
      = (res, st2)) :
    status_monotone st.db st2.db := by
  have h := batch_loop_monotone interval deadline wait etags uid fuel now pending st snaps nm
  rw [heq] at h
  exact h

theorem batch_monotone (s : Settings) (fuel : ℕ) (now : ℚ) (st : Store)
    (request : TimerBatchTickRequest) (uid : String) :
    status_monotone st.db (batch_timer_tick s fuel now st request uid).2.db := by
  unfold batch_timer_tick
  rcases hE : enforce_rate_limit s st uid "timer:batch-tick" with ⟨rejected, st1⟩
  have hdb1 : st1.db = st.db := by
    have h := enforce_db s st uid "timer:batch-tick"
    rw [hE] at h
    exact h
  simp only []
  split
  · rw [← hdb1]
    exact status_monotone_refl _
  · split
    · next e st2 heq =>
      have h2 := batch_loop_monotone_eq heq
      rw [hdb1] at h2
      exact h2
    · next snaps nm st2 heq =>
      have h2 := batch_loop_monotone_eq heq
      rw [hdb1] at h2
      exact h2

theorem batch_route_monotone (s : Settings) (fuel : ℕ) (now : ℚ) (st : Store)
    (ids : List String) (wait : Bool) (etags : Option (List (String × String)))
    (ts : Option ℚ) (uid : String) :
    status_monotone st.db (batch_tick_route s fuel now st ids wait etags ts uid).2.db := by
  unfold batch_tick_route
  cases hv : ensure_unique_ids ids with
  | error m => exact status_monotone_refl _
  | ok ids2 =>
    exact batch_monotone s fuel now st
      { timer_ids := ids2, wait := wait, client_etags := etags, timeout_seconds := ts } uid

theorem create_rows (s : Settings) (now : ℚ) (st : Store) (uid lb : String)
    (dur : ℤ) (nid : String) :
    ∀ r ∈ (create_timer s now st uid lb dur nid).2.db, r.status = TimerStatus.running →
      r ∈ st.db ∨ r.id = nid := by
  unfold create_timer
  rcases hE : enforce_rate_limit s st uid "timer:create" with ⟨rejected, st1⟩
  have hdb1 : st1.db = st.db := by
    have h := enforce_db s st uid "timer:create"
    rw [hE] at h
    exact h
  simp only []
  split
  · intro r hr hrun
    rw [hdb1] at hr
    exact Or.inl hr
  · intro r hr hrun
    set timer : Timer :=
      { id := nid, user_id := uid, label := lb, duration_seconds := dur
        status := TimerStatus.running, started_at := now, ends_at := now + dur
        version := 1, updated_at := now } with htimer
    have hb := build_monotone now
      (persist_timer_state { st1 with db := st1.db ++ [timer] } timer) timer
    have hpdb : (persist_timer_state { st1 with db := st1.db ++ [timer] } timer).db
        = st1.db ++ [timer] := persist_db _ _
    rw [hpdb] at hb
    have hr2 : r ∈ st1.db ++ [timer] := hb r hr hrun
    rcases List.mem_append.mp hr2 with h1 | h2
    · rw [hdb1] at h1
      exact Or.inl h1
    · rw [List.mem_singleton] at h2
      subst h2
      exact Or.inr rfl

theorem snapshot_canceled (now : ℚ) (st : Store) (t : Timer)
    (h : t.status = TimerStatus.canceled) :
    (build_timer_snapshot now st t).1.status = TimerStatus.canceled
  ∧ (build_timer_snapshot now st t).1.remaining_seconds = 0
  ∧ (build_timer_snapshot now st t).2 = st := by
  have hnr : t.status ≠ TimerStatus.running := by simp [h]
  rw [build_snapshot_nonrunning now st t hnr]
  exact ⟨h, rfl, rfl⟩

theorem tick_canceled (s : Settings) (fuel : ℕ) (now : ℚ) (st : Store)
    (tid uid : String) (ce : Option String) (t : Timer)
    (hrl : (enforce_rate_limit s st uid "timer:tick").1 = false)
    (hload : load_timer_for_user (enforce_rate_limit s st uid "timer:tick").2 tid uid
      = Except.ok t)
    (ht : t.status = TimerStatus.canceled) :
    ((timer_tick s (fuel + 1) now st tid uid ce false).1).map TimerTickResponse.status
      = Except.ok TimerStatus.canceled
  ∧ ((timer_tick s (fuel + 1) now st tid uid ce false).1).map
      TimerTickResponse.remaining_seconds = Except.ok 0 := by
  rcases hE : enforce_rate_limit s st uid "timer:tick" with ⟨rejected, st1⟩
  rw [hE] at hrl hload
  simp only at hrl hload
  subst hrl
  have hnr : t.status ≠ TimerStatus.running := by simp [ht]
  unfold timer_tick
  rw [hE]
  simp only [timer_tick_loop, hload]
  rw [build_snapshot_nonrunning now st1 t hnr]
  simp [TimerSnapshot.to_schema, Except.map, ht]

/-- C7: timer status is terminal and monotonic. The completing and canceling
mutations never produce a running row; finalisation is a no-op on a
non-running row; a snapshot of a canceled timer reports status canceled and
zero remaining at every instant and leaves the store untouched; cancel,
single tick, batch tick and creation never put a running row into the table
that was not already there (creation apart from the freshly inserted row
itself); and a non-waiting tick of a canceled timer answers status canceled
with zero remaining. -/
theorem C7_terminal_status_monotone :
    (∀ (t : Timer) (now : ℚ),
        (t.mark_completed now).status ≠ TimerStatus.running
      ∧ (t.mark_canceled now).status ≠ TimerStatus.running)
  ∧ (∀ (now : ℚ) (st : Store) (t : Timer),
        t.status ≠ TimerStatus.running → finalise_completed_timer now st t = st)
  ∧ (∀ (now : ℚ) (st : Store) (t : Timer), t.status = TimerStatus.canceled →
        (build_timer_snapshot now st t).1.status = TimerStatus.canceled
      ∧ (build_timer_snapshot now st t).1.remaining_seconds = 0
      ∧ (build_timer_snapshot now st t).2 = st)
  ∧ (∀ (s : Settings) (now : ℚ) (st : Store) (uid tid : String),
        status_monotone st.db (cancel_timer s now st uid tid).2.db)
  ∧ (∀ (s : Settings) (fuel : ℕ) (now : ℚ) (st : Store) (tid uid : String)
        (ce : Option String) (wait : Bool),
        status_monotone st.db (timer_tick s fuel now st tid uid ce wait).2.1.db)
  ∧ (∀ (s : Settings) (fuel : ℕ) (now : ℚ) (st : Store) (ids : List String)
        (wait : Bool) (etags : Option (List (String × String))) (ts : Option ℚ)
        (uid : String),
        status_monotone st.db (batch_tick_route s fuel now st ids wait etags ts uid).2.db)
  ∧ (∀ (s : Settings) (now : ℚ) (st : Store) (uid lb : String) (dur : ℤ)
        (nid : String), ∀ r ∈ (create_timer s now st uid lb dur nid).2.db,
        r.status = TimerStatus.running → r ∈ st.db ∨ r.id = nid)
  ∧ (∀ (s : Settings) (fuel : ℕ) (now : ℚ) (st : Store) (tid uid : String)
        (ce : Option String) (t : Timer),
        (enforce_rate_limit s st uid "timer:tick").1 = false →
        load_timer_for_user (enforce_rate_limit s st uid "timer:tick").2 tid uid
          = Except.ok t →
        t.status = TimerStatus.canceled →
        ((timer_tick s (fuel + 1) now st tid uid ce false).1).map
            TimerTickResponse.status = Except.ok TimerStatus.canceled
      ∧ ((timer_tick s (fuel + 1) now st tid uid ce false).1).map
            TimerTickResponse.remaining_seconds = Except.ok 0) := by
  refine ⟨?_, ?_, ?_, ?_, ?_, ?_, ?_, ?_⟩
  · intro t now
    constructor
    · simp [Timer.mark_completed, Timer.touch]
    · simp [Timer.mark_canceled, Timer.touch]
  · intro now st t h
    simp [finalise_completed_timer, h]
  · intro now st t h
    exact snapshot_canceled now st t h
  · intro s now st uid tid
    exact cancel_monotone s now st uid tid
  · intro s fuel now st tid uid ce wait
    exact tick_monotone s fuel now st tid uid ce wait
  · intro s fuel now st ids wait etags ts uid
    exact batch_route_monotone s fuel now st ids wait etags ts uid
  · intro s now st uid lb dur nid
    exact create_rows s now st uid lb dur nid
  · intro s fuel now st tid uid ce t h1 h2 h3
    exact tick_canceled s fuel now st tid uid ce t h1 h2 h3

/-- Witness for C7, instantiating the conjuncts with hypotheses on the
fixtures: the canceled fixture with its originally scheduled deadline far in
the past and in the future. -/
theorem C7_terminal_status_monotone_witness :
    (tRun.mark_completed 61).status ≠ TimerStatus.running
  ∧ (tRun.mark_canceled 5).status ≠ TimerStatus.running
  ∧ finalise_completed_timer 3 stCanceled tCanceled = stCanceled
  ∧ (build_timer_snapshot 500 stCanceled tCanceled).1.status = TimerStatus.canceled
  ∧ (build_timer_snapshot 500 stCanceled tCanceled).1.remaining_seconds = 0
  ∧ (tRun ∈ stRun.db ∨ tRun.id = "t9")
  ∧ ((timer_tick {} 1 500 stCanceled "t2" "u" none false).1).map
      TimerTickResponse.status = Except.ok TimerStatus.canceled
  ∧ ((timer_tick {} 1 500 stCanceled "t2" "u" none false).1).map
      TimerTickResponse.remaining_seconds = Except.ok 0 := by
  refine ⟨(C7_terminal_status_monotone.1 tRun 61).1,
    (C7_terminal_status_monotone.1 tRun 5).2,
    C7_terminal_status_monotone.2.1 3 stCanceled tCanceled (by decide),
    (C7_terminal_status_monotone.2.2.1 500 stCanceled tCanceled rfl).1,
    (C7_terminal_status_monotone.2.2.1 500 stCanceled tCanceled rfl).2.1,
    C7_terminal_status_monotone.2.2.2.2.2.2.1 {} 0 stRun "u" "L" 60 "t9" tRun
      (by with_unfolding_all decide) rfl,
    ?_⟩
  have h := C7_terminal_status_monotone.2.2.2.2.2.2.2 {} 0 500 stCanceled "t2" "u"
    none tCanceled (by rfl) (by with_unfolding_all rfl) rfl
  exact h

end Nuro
